import Mathlib

/-!
Shallow embedding of kube_ovn_api.py: a FastAPI facade over Kubernetes
custom objects of the kubeovn.io/v1 API group.  Remote control-plane calls
are modelled by an oracle of type Remote; every handler returns, besides
its HTTP response, the ordered list of remote calls it issued, so that
claims about the absence of remote I/O are statements about that trace.
-/

/-- JSON-like values: Python dicts are association lists in insertion
order (Python dict keys are unique and ordered). -/
inductive Json where
  | null : Json
  | jbool : Bool → Json
  | jnum : Int → Json
  | jstr : String → Json
  | jarr : List Json → Json
  | jobj : List (String × Json) → Json

/-- First-binding association-list lookup (Python dict lookup; in a real
dict keys are unique, so first-binding semantics agrees with it). -/
def alookup {α : Type} : List (String × α) → String → Option α
  | [], _ => none
  | (k2, v) :: rest, k => if k2 = k then some v else alookup rest k

/-- Python subscript current[k] on a JSON value: defined only when the
value is a dict containing the key (otherwise Python raises, which the
handlers catch with their blanket except clause). -/
def pyIndex (j : Json) (k : String) : Option Json :=
  match j with
  | Json.jobj fields => alookup fields k
  | _ => none

/-- str(KeyError(k)) in Python is the key wrapped in single quotes; the
other exceptions a failed subscript or merge can raise (TypeError,
AttributeError) are collapsed onto this message, which no endpoint
distinguishes. -/
def strKeyError (k : String) : String := "\x27" ++ k ++ "\x27"

/-- Python str.capitalize: first character uppercased and every
following character lowercased (ASCII, which covers all inputs here). -/
def pyCapitalize (s : String) : String :=
  match s.data with
  | [] => ""
  | c :: rest => String.mk (c.toUpper :: rest.map Char.toLower)

def GROUP : String := "kubeovn.io"

def VERSION : String := "v1"

/-- The resource registry (module-level RESOURCES list). -/
def RESOURCES : List String :=
  ["vpcs", "subnets", "ippools", "ips", "iptables-dnat-rules", "iptables-eips",
   "iptables-fip-rules", "iptables-snat-rules", "ovn-dnat-rules", "ovn-eips",
   "ovn-fips", "ovn-snat-rules", "provider-networks", "qos-policies",
   "security-groups", "switch-lb-rules", "vips", "vlans", "vpc-dnses",
   "vpc-nat-gateways"]

/-- The kind_mapping table defined inside create_resource. -/
def kind_mapping : List (String × String) :=
  [("vpcs", "Vpc"),
   ("subnets", "Subnet"),
   ("ippools", "IpPool"),
   ("ips", "IP"),
   ("iptables-dnat-rules", "IptablesDnatRule"),
   ("iptables-eips", "IptablesEIP"),
   ("iptables-fip-rules", "IptablesFIPRule"),
   ("iptables-snat-rules", "IptablesSnatRule"),
   ("ovn-dnat-rules", "OvnDnatRule"),
   ("ovn-eips", "OvnEip"),
   ("ovn-fips", "OvnFip"),
   ("ovn-snat-rules", "OvnSnatRule"),
   ("provider-networks", "ProviderNetwork"),
   ("qos-policies", "QoSPolicy"),
   ("security-groups", "SecurityGroup"),
   ("switch-lb-rules", "SwitchLBRule"),
   ("vips", "Vip"),
   ("vlans", "Vlan"),
   ("vpc-dnses", "VpcDns"),
   ("vpc-nat-gateways", "VpcNatGateway")]

/-- kind = kind_mapping.get(resource, resource.capitalize()) -/
def resolveKind (resource : String) : String :=
  (alookup kind_mapping resource).getD (pyCapitalize resource)

/-- Exceptions the remote client can raise: ApiException with a status
and its str(e) rendering, or any other exception with its str(e). -/
inductive PyErr where
  | apiExn : Nat → String → PyErr
  | exn : String → PyErr
deriving DecidableEq

/-- str(e) of a raised exception. -/
def errStr : PyErr → String
  | PyErr.apiExn _ msg => msg
  | PyErr.exn msg => msg

/-- The remote CustomObjectsApi calls a handler can issue. -/
inductive RemoteCall where
  | listCall : String → String → String → RemoteCall
  | getCall : String → String → String → String → RemoteCall
  | createCall : String → String → String → Json → RemoteCall
  | patchCall : String → String → String → String → Json → RemoteCall
  | deleteCall : String → String → String → String → RemoteCall

/-- The remote control plane as an oracle from calls to outcomes. -/
def Remote : Type := RemoteCall → Except PyErr Json

/-- A handler outcome: a 200 JSON return value, or a raised
HTTPException with a status code and a detail string. -/
inductive Response where
  | ok : Json → Response
  | httpError : Nat → String → Response

/-- HTTP status of a response (FastAPI returns 200 for plain values). -/
def respStatus : Response → Nat
  | Response.ok _ => 200
  | Response.httpError s _ => s

/-- CreateBody model: name, optional namespace, spec.  The source field
named namespace is called nspace here because namespace is a Lean
keyword. -/
structure CreateBody where
  name : String
  nspace : Option String
  spec : List (String × Json)

/-- PatchBody model: the spec fields to merge in. -/
structure PatchBody where
  spec : List (String × Json)

/-- Python dict.update(cur, patch): existing keys keep their position
but take the patch value; patch keys absent from cur are appended in
patch order. -/
def dictUpdate (cur patch : List (String × Json)) : List (String × Json) :=
  (cur.map (fun kv =>
      match alookup patch kv.1 with
      | some v => (kv.1, v)
      | none => kv))
    ++ patch.filter (fun kv => (alookup cur kv.1).isNone)

/-- In-place assignment fields[k] = v for a key already present. -/
def setKey (fields : List (String × Json)) (k : String) (v : Json) :
    List (String × Json) :=
  fields.map (fun kv => if kv.1 = k then (kv.1, v) else kv)

/-- current["spec"].update(patch_body.spec) followed by reading back the
mutated current: defined when current is a dict whose "spec" value is a
dict, none when the subscript or the merge raises. -/
def updatedSpec (current : Json) (patch : List (String × Json)) : Option Json :=
  match current with
  | Json.jobj fields =>
    match alookup fields "spec" with
    | some (Json.jobj specFields) =>
        some (Json.jobj (setKey fields "spec" (Json.jobj (dictUpdate specFields patch))))
    | _ => none
  | _ => none

/-- GET /api/(resource) -/
def get_resources (api : Remote) (resource : String) :
    Response × List RemoteCall :=
  if resource ∈ RESOURCES then
    let call := RemoteCall.listCall GROUP VERSION resource
    match api call with
    | Except.ok result =>
      match pyIndex result "items" with
      | some items => (Response.ok items, [call])
      | none =>
          (Response.ok (Json.jobj [("error", Json.jstr (strKeyError "items"))]), [call])
    | Except.error e =>
        (Response.ok (Json.jobj [("error", Json.jstr (errStr e))]), [call])
  else
    (Response.ok (Json.jobj [("error", Json.jstr "Invalid resource type")]), [])

/-- POST /api/(resource) -/
def create_resource (api : Remote) (resource : String) (create_body : CreateBody) :
    Response × List RemoteCall :=
  if resource ∈ RESOURCES then
    let kind := resolveKind resource
    let metadata : List (String × Json) :=
      match create_body.nspace with
      | some ns =>
          if ns = "" then [("name", Json.jstr create_body.name)]
          else [("name", Json.jstr create_body.name), ("namespace", Json.jstr ns)]
      | none => [("name", Json.jstr create_body.name)]
    let manifest : Json := Json.jobj
      [("apiVersion", Json.jstr (GROUP ++ "/" ++ VERSION)),
       ("kind", Json.jstr kind),
       ("metadata", Json.jobj metadata),
       ("spec", Json.jobj create_body.spec)]
    let call := RemoteCall.createCall GROUP VERSION resource manifest
    match api call with
    | Except.ok response => (Response.ok response, [call])
    | Except.error (PyErr.apiExn status msg) =>
        if status = 409 then
          (Response.httpError 409
            (kind ++ " \x27" ++ create_body.name ++ "\x27 already exists"), [call])
        else (Response.httpError status msg, [call])
    | Except.error (PyErr.exn msg) => (Response.httpError 500 msg, [call])
  else
    (Response.httpError 400 "Invalid resource type", [])

/-- PATCH /api/subnets/(subnet_name) -/
def patch_subnet (api : Remote) (subnet_name : String) (patch_body : PatchBody) :
    Response × List RemoteCall :=
  let gc := RemoteCall.getCall GROUP VERSION "subnets" subnet_name
  match api gc with
  | Except.ok current =>
    match updatedSpec current patch_body.spec with
    | some merged =>
      let pc := RemoteCall.patchCall GROUP VERSION "subnets" subnet_name merged
      match api pc with
      | Except.ok response => (Response.ok response, [gc, pc])
      | Except.error (PyErr.apiExn status msg) =>
          if status = 404 then
            (Response.httpError 404
              ("Subnet \x27" ++ subnet_name ++ "\x27 not found"), [gc, pc])
          else (Response.httpError status msg, [gc, pc])
      | Except.error (PyErr.exn msg) => (Response.httpError 500 msg, [gc, pc])
    | none => (Response.httpError 500 (strKeyError "spec"), [gc])
  | Except.error (PyErr.apiExn status msg) =>
      if status = 404 then
        (Response.httpError 404
          ("Subnet \x27" ++ subnet_name ++ "\x27 not found"), [gc])
      else (Response.httpError status msg, [gc])
  | Except.error (PyErr.exn msg) => (Response.httpError 500 msg, [gc])

/-- PATCH /api/vpc-nat-gateways/(gateway_name) -/
def patch_vpc_nat_gateway (api : Remote) (gateway_name : String)
    (patch_body : PatchBody) : Response × List RemoteCall :=
  let gc := RemoteCall.getCall GROUP VERSION "vpc-nat-gateways" gateway_name
  match api gc with
  | Except.ok current =>
    match updatedSpec current patch_body.spec with
    | some merged =>
      let pc := RemoteCall.patchCall GROUP VERSION "vpc-nat-gateways" gateway_name merged
      match api pc with
      | Except.ok response => (Response.ok response, [gc, pc])
      | Except.error (PyErr.apiExn status msg) =>
          if status = 404 then
            (Response.httpError 404
              ("VPC NAT Gateway \x27" ++ gateway_name ++ "\x27 not found"), [gc, pc])
          else (Response.httpError status msg, [gc, pc])
      | Except.error (PyErr.exn msg) => (Response.httpError 500 msg, [gc, pc])
    | none => (Response.httpError 500 (strKeyError "spec"), [gc])
  | Except.error (PyErr.apiExn status msg) =>
      if status = 404 then
        (Response.httpError 404
          ("VPC NAT Gateway \x27" ++ gateway_name ++ "\x27 not found"), [gc])
      else (Response.httpError status msg, [gc])
  | Except.error (PyErr.exn msg) => (Response.httpError 500 msg, [gc])

/-- DELETE /api/subnets/(subnet_name) -/
def delete_subnet (api : Remote) (subnet_name : String) :
    Response × List RemoteCall :=
  let gc := RemoteCall.getCall GROUP VERSION "subnets" subnet_name
  match api gc with
  | Except.ok _ =>
    let dc := RemoteCall.deleteCall GROUP VERSION "subnets" subnet_name
    match api dc with
    | Except.ok _ =>
        (Response.ok (Json.jobj [("message",
          Json.jstr ("Subnet \x27" ++ subnet_name ++ "\x27 deleted successfully"))]),
         [gc, dc])
    | Except.error (PyErr.apiExn status msg) =>
        if status = 404 then
          (Response.httpError 404
            ("Subnet \x27" ++ subnet_name ++ "\x27 not found"), [gc, dc])
        else (Response.httpError status msg, [gc, dc])
    | Except.error (PyErr.exn msg) => (Response.httpError 500 msg, [gc, dc])
  | Except.error (PyErr.apiExn status msg) =>
      if status = 404 then
        (Response.httpError 404
          ("Subnet \x27" ++ subnet_name ++ "\x27 not found"), [gc])
      else (Response.httpError status msg, [gc])
  | Except.error (PyErr.exn msg) => (Response.httpError 500 msg, [gc])

/-- DELETE /api/vpc-nat-gateways/(gateway_name) -/
def delete_vpc_nat_gateway (api : Remote) (gateway_name : String) :
    Response × List RemoteCall :=
  let gc := RemoteCall.getCall GROUP VERSION "vpc-nat-gateways" gateway_name
  match api gc with
  | Except.ok _ =>
    let dc := RemoteCall.deleteCall GROUP VERSION "vpc-nat-gateways" gateway_name
    match api dc with
    | Except.ok _ =>
        (Response.ok (Json.jobj [("message",
          Json.jstr ("VPC NAT Gateway \x27" ++ gateway_name ++ "\x27 deleted successfully"))]),
         [gc, dc])
    | Except.error (PyErr.apiExn status msg) =>
        if status = 404 then
          (Response.httpError 404
            ("VPC NAT Gateway \x27" ++ gateway_name ++ "\x27 not found"), [gc, dc])
        else (Response.httpError status msg, [gc, dc])
    | Except.error (PyErr.exn msg) => (Response.httpError 500 msg, [gc, dc])
  | Except.error (PyErr.apiExn status msg) =>
      if status = 404 then
        (Response.httpError 404
          ("VPC NAT Gateway \x27" ++ gateway_name ++ "\x27 not found"), [gc])
      else (Response.httpError status msg, [gc])
  | Except.error (PyErr.exn msg) => (Response.httpError 500 msg, [gc])

/-- PATCH /api/(resource)/(resource_name) -/
def patch_resource (api : Remote) (resource resource_name : String)
    (patch_body : PatchBody) : Response × List RemoteCall :=
  if resource ∈ RESOURCES then
    let gc := RemoteCall.getCall GROUP VERSION resource resource_name
    match api gc with
    | Except.ok current =>
      match updatedSpec current patch_body.spec with
      | some merged =>
        let pc := RemoteCall.patchCall GROUP VERSION resource resource_name merged
        match api pc with
        | Except.ok response => (Response.ok response, [gc, pc])
        | Except.error (PyErr.apiExn status msg) =>
            if status = 404 then
              (Response.httpError 404
                (pyCapitalize resource ++ " \x27" ++ resource_name ++ "\x27 not found"),
               [gc, pc])
            else (Response.httpError status msg, [gc, pc])
        | Except.error (PyErr.exn msg) => (Response.httpError 500 msg, [gc, pc])
      | none => (Response.httpError 500 (strKeyError "spec"), [gc])
    | Except.error (PyErr.apiExn status msg) =>
        if status = 404 then
          (Response.httpError 404
            (pyCapitalize resource ++ " \x27" ++ resource_name ++ "\x27 not found"), [gc])
        else (Response.httpError status msg, [gc])
    | Except.error (PyErr.exn msg) => (Response.httpError 500 msg, [gc])
  else
    (Response.httpError 400 "Invalid resource type", [])

/-- DELETE /api/(resource)/(resource_name) -/
def delete_resource (api : Remote) (resource resource_name : String) :
    Response × List RemoteCall :=
  if resource ∈ RESOURCES then
    let gc := RemoteCall.getCall GROUP VERSION resource resource_name
    match api gc with
    | Except.ok _ =>
      let dc := RemoteCall.deleteCall GROUP VERSION resource resource_name
      match api dc with
      | Except.ok _ =>
          (Response.ok (Json.jobj [("message",
            Json.jstr (pyCapitalize resource ++ " \x27" ++ resource_name
              ++ "\x27 deleted successfully"))]), [gc, dc])
      | Except.error (PyErr.apiExn status msg) =>
          if status = 404 then
            (Response.httpError 404
              (pyCapitalize resource ++ " \x27" ++ resource_name ++ "\x27 not found"),
             [gc, dc])
          else (Response.httpError status msg, [gc, dc])
      | Except.error (PyErr.exn msg) => (Response.httpError 500 msg, [gc, dc])
    | Except.error (PyErr.apiExn status msg) =>
        if status = 404 then
          (Response.httpError 404
            (pyCapitalize resource ++ " \x27" ++ resource_name ++ "\x27 not found"), [gc])
        else (Response.httpError status msg, [gc])
    | Except.error (PyErr.exn msg) => (Response.httpError 500 msg, [gc])
  else
    (Response.httpError 400 "Invalid resource type", [])

/-- HTTP verbs used by the app (plus the WebSocket pseudo-verb). -/
inductive HttpMethod where
  | get | post | patch | del | ws
deriving DecidableEq

/-- A path-template segment: a literal or a path parameter. -/
inductive Seg where
  | lit : String → Seg
  | param : Seg
deriving DecidableEq

/-- Handler identity, one per route decorator in the source. -/
inductive HandlerId where
  | getResourcesH | createResourceH | patchSubnetH | patchVpcNatGatewayH
  | deleteSubnetH | deleteVpcNatGatewayH | patchResourceH | deleteResourceH
  | websocketH
deriving DecidableEq

/-- The route table, in decorator registration order (top to bottom of
the source file); FastAPI matches routes in this order. -/
def routes : List (HttpMethod × List Seg × HandlerId) :=
  [(HttpMethod.get, [Seg.lit "api", Seg.param], HandlerId.getResourcesH),
   (HttpMethod.post, [Seg.lit "api", Seg.param], HandlerId.createResourceH),
   (HttpMethod.patch, [Seg.lit "api", Seg.lit "subnets", Seg.param], HandlerId.patchSubnetH),
   (HttpMethod.patch, [Seg.lit "api", Seg.lit "vpc-nat-gateways", Seg.param],
     HandlerId.patchVpcNatGatewayH),
   (HttpMethod.del, [Seg.lit "api", Seg.lit "subnets", Seg.param], HandlerId.deleteSubnetH),
   (HttpMethod.del, [Seg.lit "api", Seg.lit "vpc-nat-gateways", Seg.param],
     HandlerId.deleteVpcNatGatewayH),
   (HttpMethod.patch, [Seg.lit "api", Seg.param, Seg.param], HandlerId.patchResourceH),
   (HttpMethod.del, [Seg.lit "api", Seg.param, Seg.param], HandlerId.deleteResourceH),
   (HttpMethod.ws, [Seg.lit "ws"], HandlerId.websocketH)]

/-- Does a template segment match a concrete path segment? -/
def segMatches : Seg → String → Bool
  | Seg.lit s, x => s == x
  | Seg.param, _ => true

/-- Does a path template match a concrete segment list? -/
def pathMatches : List Seg → List String → Bool
  | [], [] => true
  | s :: ps, x :: xs => segMatches s x && pathMatches ps xs
  | _, _ => false

/-- First-match dispatch over the route table. -/
def dispatch (m : HttpMethod) (path : List String) : Option HandlerId :=
  (routes.find? (fun r => r.1 == m && pathMatches r.2.1 path)).map (fun r => r.2.2)

/-- One item received from a watch stream: a well-formed change event
(with its type string and object), or a point at which the subscription,
the deserialization of the event, or the send raises. -/
inductive StreamItem where
  | ev : String → Json → StreamItem
  | failure : String → StreamItem

/-- The JSON message the relay sends per event. -/
def wsMessage (resource etype : String) (obj : Json) : Json :=
  Json.jobj [("resource", Json.jstr resource), ("type", Json.jstr etype),
             ("object", obj)]

/-- Observable outcome of one run of the websocket handler: the messages
sent in order, whether the handler ended by an exception, whether
w.stop() ran (the finally block), and whether the outbound connection
ended (the handler returned; the ASGI server then closes the socket). -/
structure RelayResult where
  sent : List Json
  errored : Bool
  stopCalled : Bool
  closed : Bool

/-- Drain one watch stream: forward each event, consuming one unit of
send capacity per send (exhausted capacity models a connection drop at
that send); a failure item raises.  Returns the messages sent, the
remaining capacity, and the exception if one was raised. -/
def runStream (resource : String) : List StreamItem → Nat → List Json × Nat × Option String
  | [], cap => ([], cap, none)
  | StreamItem.failure m :: _, cap => ([], cap, some m)
  | StreamItem.ev t o :: rest, cap =>
      match cap with
      | 0 => ([], 0, some "websocket connection closed")
      | Nat.succ c =>
        let r := runStream resource rest c
        (wsMessage resource t o :: r.1, r.2.1, r.2.2)

/-- The outer for-loop over the registry: drain each kind in order and
stop the whole loop at the first exception. -/
def runKinds : List (String × List StreamItem) → Nat → List Json × Option String
  | [], _ => ([], none)
  | (r, items) :: rest, cap =>
      match runStream r items cap with
      | (ms, c, none) =>
        let r2 := runKinds rest c
        (ms ++ r2.1, r2.2)
      | (ms, _, some m) => (ms, some m)

/-- WS /ws: accept, then for each resource of RESOURCES stream its
events and forward each as a wsMessage; any exception ends the loop and
is swallowed (printed), the finally block stops the watch, and the
handler returns, which ends the connection. -/
def websocket_endpoint (events : String → List StreamItem) (cap : Nat) : RelayResult :=
  let r := runKinds (RESOURCES.map (fun res => (res, events res))) cap
  { sent := r.1, errored := r.2.isSome, stopCalled := true, closed := true }

/-- A stream containing only well-formed events. -/
def allEv (items : List StreamItem) : Bool :=
  items.all (fun i => match i with | StreamItem.ev _ _ => true | StreamItem.failure _ => false)

/-- The messages an error-free stream should produce, in order. -/
def fmtItems (resource : String) (items : List StreamItem) : List Json :=
  items.map (fun i => match i with
    | StreamItem.ev t o => wsMessage resource t o
    | StreamItem.failure _ => Json.null)

/-- All messages of an error-free run, registry order. -/
def fmtAll (events : String → List StreamItem) : List Json :=
  (RESOURCES.map (fun res => fmtItems res (events res))).flatten

/-- Total number of events offered to the relay. -/
def totalEv (events : String → List StreamItem) : Nat :=
  (RESOURCES.map (fun res => (events res).length)).sum

/-- Total length of the streams offered to the inner loops. -/
def sumLens (ps : List (String × List StreamItem)) : Nat :=
  (ps.map (fun p => p.2.length)).sum

/-- Projection of the detail string of a response. -/
def respDetail : Response → String
  | Response.ok _ => ""
  | Response.httpError _ d => d

/-- A remote that is never reached (any call raises a plain exception). -/
def noRemote : Remote := fun _ => Except.error (PyErr.exn "unreachable")

/-- A remote on which every call raises ApiException 409. -/
def conflictRemote : Remote := fun _ =>
  Except.error (PyErr.apiExn 409 "(409) Reason: Conflict")

/-- A remote on which every call raises ApiException 404. -/
def notFoundRemote : Remote := fun _ =>
  Except.error (PyErr.apiExn 404 "(404) Reason: Not Found")

/-- A remote holding one object with spec {a: 1, b: 3}; every call
succeeds. -/
def okRemote : Remote := fun c =>
  match c with
  | RemoteCall.getCall _ _ _ _ =>
      Except.ok (Json.jobj
        [("apiVersion", Json.jstr "kubeovn.io/v1"),
         ("spec", Json.jobj [("a", Json.jnum 1), ("b", Json.jnum 3)])])
  | _ => Except.ok Json.null

/-- One concrete set of watch streams: a single ADDED event on vpcs. -/
def eventsW : String → List StreamItem := fun r =>
  if r = "vpcs" then [StreamItem.ev "ADDED" Json.null] else []


theorem alookup_append {α : Type} (l1 l2 : List (String × α)) (k : String) :
    alookup (l1 ++ l2) k =
      match alookup l1 k with
      | some v => some v
      | none => alookup l2 k := by
  induction l1 with
  | nil => simp [alookup]
  | cons kv rest ih =>
    obtain ⟨k2, v⟩ := kv
    by_cases hk : k2 = k
    · simp [alookup, hk]
    · simp [alookup, hk, ih]

theorem alookup_overwrite (cur patch : List (String × Json)) (k : String) :
    alookup (cur.map (fun kv =>
        match alookup patch kv.1 with
        | some v => (kv.1, v)
        | none => kv)) k =
      match alookup cur k with
      | none => none
      | some v =>
        match alookup patch k with
        | some w => some w
        | none => some v := by
  induction cur with
  | nil => simp [alookup]
  | cons kv rest ih =>
    obtain ⟨k2, v⟩ := kv
    by_cases hk : k2 = k
    · subst hk
      rcases hp : alookup patch k2 with _ | w <;> simp [alookup, hp]
    · rcases hp : alookup patch k2 with _ | w <;> simp [alookup, hk, hp, ih]

theorem alookup_filter_fresh (cur patch : List (String × Json)) (k : String) :
    alookup (patch.filter (fun kv => (alookup cur kv.1).isNone)) k =
      match alookup cur k with
      | none => alookup patch k
      | some _ => none := by
  induction patch with
  | nil => rcases alookup cur k with _ | v <;> simp [alookup]
  | cons kv rest ih =>
    obtain ⟨k2, v⟩ := kv
    by_cases hk : k2 = k
    · subst hk
      rcases hc : alookup cur k2 with _ | w <;>
        simp [List.filter, alookup, hc, ih]
    · rcases hc : alookup cur k2 with _ | w <;>
        rcases hc2 : alookup cur k with _ | w2 <;>
          simp [List.filter, alookup, hc, hc2, hk, ih]

theorem dictUpdate_alookup (cur patch : List (String × Json)) (k : String) :
    alookup (dictUpdate cur patch) k =
      match alookup patch k with
      | some v => some v
      | none => alookup cur k := by
  rw [dictUpdate, alookup_append, alookup_overwrite, alookup_filter_fresh]
  rcases hc : alookup cur k with _ | v <;> rcases hp : alookup patch k with _ | w <;> simp

theorem patch_subnet_vs_generic (api : Remote) (n : String) (b : PatchBody) :
    (patch_subnet api n b).2 = (patch_resource api "subnets" n b).2 ∧
    respStatus (patch_subnet api n b).1 = respStatus (patch_resource api "subnets" n b).1 ∧
    (respStatus (patch_subnet api n b).1 ≠ 404 →
      patch_subnet api n b = patch_resource api "subnets" n b) := by
  have hmem : "subnets" ∈ RESOURCES := by decide
  unfold patch_subnet patch_resource
  rw [if_pos hmem]
  rcases hg : api (RemoteCall.getCall GROUP VERSION "subnets" n) with e | cur
  · rcases e with ⟨s, m⟩ | ⟨m⟩
    · by_cases hs : s = 404 <;> simp [hg, hs, respStatus]
    · simp [hg, respStatus]
  · rcases hu : updatedSpec cur b.spec with _ | merged
    · simp [hg, hu, respStatus]
    · rcases hp : api (RemoteCall.patchCall GROUP VERSION "subnets" n merged) with e | resp
      · rcases e with ⟨s, m⟩ | ⟨m⟩
        · by_cases hs : s = 404 <;> simp [hg, hu, hp, hs, respStatus]
        · simp [hg, hu, hp, respStatus]
      · simp [hg, hu, hp, respStatus]

theorem patch_vpcnat_vs_generic (api : Remote) (n : String) (b : PatchBody) :
    (patch_vpc_nat_gateway api n b).2 = (patch_resource api "vpc-nat-gateways" n b).2 ∧
    respStatus (patch_vpc_nat_gateway api n b).1 =
      respStatus (patch_resource api "vpc-nat-gateways" n b).1 ∧
    (respStatus (patch_vpc_nat_gateway api n b).1 ≠ 404 →
      patch_vpc_nat_gateway api n b = patch_resource api "vpc-nat-gateways" n b) := by
  have hmem : "vpc-nat-gateways" ∈ RESOURCES := by decide
  unfold patch_vpc_nat_gateway patch_resource
  rw [if_pos hmem]
  rcases hg : api (RemoteCall.getCall GROUP VERSION "vpc-nat-gateways" n) with e | cur
  · rcases e with ⟨s, m⟩ | ⟨m⟩
    · by_cases hs : s = 404 <;> simp [hg, hs, respStatus]
    · simp [hg, respStatus]
  · rcases hu : updatedSpec cur b.spec with _ | merged
    · simp [hg, hu, respStatus]
    · rcases hp : api (RemoteCall.patchCall GROUP VERSION "vpc-nat-gateways" n merged) with e | resp
      · rcases e with ⟨s, m⟩ | ⟨m⟩
        · by_cases hs : s = 404 <;> simp [hg, hu, hp, hs, respStatus]
        · simp [hg, hu, hp, respStatus]
      · simp [hg, hu, hp, respStatus]

theorem delete_subnet_vs_generic (api : Remote) (n : String) :
    (delete_subnet api n).2 = (delete_resource api "subnets" n).2 ∧
    respStatus (delete_subnet api n).1 = respStatus (delete_resource api "subnets" n).1 ∧
    (∀ s d, (delete_subnet api n).1 = Response.httpError s d → s ≠ 404 →
      (delete_resource api "subnets" n).1 = Response.httpError s d) := by
  have hmem : "subnets" ∈ RESOURCES := by decide
  unfold delete_subnet delete_resource
  rw [if_pos hmem]
  rcases hg : api (RemoteCall.getCall GROUP VERSION "subnets" n) with e | cur
  · rcases e with ⟨s, m⟩ | ⟨m⟩
    · by_cases hs : s = 404 <;> simp [hg, hs, respStatus]
    · simp [hg, respStatus]
  · rcases hd : api (RemoteCall.deleteCall GROUP VERSION "subnets" n) with e | resp
    · rcases e with ⟨s, m⟩ | ⟨m⟩
      · by_cases hs : s = 404 <;> simp [hg, hd, hs, respStatus]
      · simp [hg, hd, respStatus]
    · simp [hg, hd, respStatus]

theorem delete_vpcnat_vs_generic (api : Remote) (n : String) :
    (delete_vpc_nat_gateway api n).2 = (delete_resource api "vpc-nat-gateways" n).2 ∧
    respStatus (delete_vpc_nat_gateway api n).1 =
      respStatus (delete_resource api "vpc-nat-gateways" n).1 ∧
    (∀ s d, (delete_vpc_nat_gateway api n).1 = Response.httpError s d → s ≠ 404 →
      (delete_resource api "vpc-nat-gateways" n).1 = Response.httpError s d) := by
  have hmem : "vpc-nat-gateways" ∈ RESOURCES := by decide
  unfold delete_vpc_nat_gateway delete_resource
  rw [if_pos hmem]
  rcases hg : api (RemoteCall.getCall GROUP VERSION "vpc-nat-gateways" n) with e | cur
  · rcases e with ⟨s, m⟩ | ⟨m⟩
    · by_cases hs : s = 404 <;> simp [hg, hs, respStatus]
    · simp [hg, respStatus]
  · rcases hd : api (RemoteCall.deleteCall GROUP VERSION "vpc-nat-gateways" n) with e | resp
    · rcases e with ⟨s, m⟩ | ⟨m⟩
      · by_cases hs : s = 404 <;> simp [hg, hd, hs, respStatus]
      · simp [hg, hd, respStatus]
    · simp [hg, hd, respStatus]


theorem runStream_clean (r : String) (items : List StreamItem) :
    ∀ cap : Nat, allEv items = true → items.length ≤ cap →
      runStream r items cap = (fmtItems r items, cap - items.length, none) := by
  induction items with
  | nil => intro cap _ _; simp [runStream, fmtItems]
  | cons i rest ih =>
    intro cap h hc
    cases i with
    | failure m => simp [allEv] at h
    | ev t o =>
      have hrest : allEv rest = true := by simpa [allEv] using h
      cases cap with
      | zero => simp at hc
      | succ c =>
        have hlen : rest.length ≤ c := by simpa using hc
        simp [runStream, fmtItems, ih c hrest hlen, Nat.succ_sub_succ]

theorem runStream_drop (r : String) (items : List StreamItem) :
    ∀ cap : Nat, allEv items = true → cap < items.length →
      runStream r items cap =
        ((fmtItems r items).take cap, 0, some "websocket connection closed") := by
  induction items with
  | nil => intro cap _ hc; simp at hc
  | cons i rest ih =>
    intro cap h hc
    cases i with
    | failure m => simp [allEv] at h
    | ev t o =>
      have hrest : allEv rest = true := by simpa [allEv] using h
      cases cap with
      | zero => simp [runStream, fmtItems]
      | succ c =>
        have hlen : c < rest.length := by simpa using hc
        simp [runStream, fmtItems, ih c hrest hlen]

theorem runStream_failure (r : String) (g : List StreamItem) (m : String)
    (tail : List StreamItem) :
    ∀ cap : Nat, allEv g = true → g.length ≤ cap →
      runStream r (g ++ StreamItem.failure m :: tail) cap =
        (fmtItems r g, cap - g.length, some m) := by
  induction g with
  | nil => intro cap _ _; simp [runStream, fmtItems]
  | cons i rest ih =>
    intro cap h hc
    cases i with
    | failure m2 => simp [allEv] at h
    | ev t o =>
      have hrest : allEv rest = true := by simpa [allEv] using h
      cases cap with
      | zero => simp at hc
      | succ c =>
        have hlen : rest.length ≤ c := by simpa using hc
        simp [runStream, fmtItems, ih c hrest hlen, Nat.succ_sub_succ]

theorem fmtItems_length (r : String) (items : List StreamItem) :
    (fmtItems r items).length = items.length := by
  simp [fmtItems]

theorem runKinds_clean (ps : List (String × List StreamItem)) :
    ∀ cap : Nat, (∀ p ∈ ps, allEv p.2 = true) → sumLens ps ≤ cap →
      runKinds ps cap = ((ps.map (fun p => fmtItems p.1 p.2)).flatten, none) := by
  induction ps with
  | nil => intro cap _ _; simp [runKinds]
  | cons p rest ih =>
    intro cap h hc
    obtain ⟨r, items⟩ := p
    have hall : allEv items = true := h (r, items) (List.mem_cons_self _ _)
    have hrest : ∀ q ∈ rest, allEv q.2 = true := fun q hq => h q (List.mem_cons_of_mem _ hq)
    have hsum : items.length + sumLens rest ≤ cap := by
      simpa [sumLens] using hc
    have hlen : items.length ≤ cap := by omega
    have hsum2 : sumLens rest ≤ cap - items.length := by omega
    simp [runKinds, runStream_clean r items cap hall hlen, ih _ hrest hsum2]

theorem runKinds_drop (ps : List (String × List StreamItem)) :
    ∀ cap : Nat, (∀ p ∈ ps, allEv p.2 = true) → cap < sumLens ps →
      runKinds ps cap =
        (((ps.map (fun p => fmtItems p.1 p.2)).flatten).take cap,
         some "websocket connection closed") := by
  induction ps with
  | nil => intro cap _ hc; simp [sumLens] at hc
  | cons p rest ih =>
    intro cap h hc
    obtain ⟨r, items⟩ := p
    have hall : allEv items = true := h (r, items) (List.mem_cons_self _ _)
    have hrest : ∀ q ∈ rest, allEv q.2 = true := fun q hq => h q (List.mem_cons_of_mem _ hq)
    have hsum : cap < items.length + sumLens rest := by
      simpa [sumLens] using hc
    by_cases hcase : cap < items.length
    · have hrun := runStream_drop r items cap hall hcase
      have htake : ((fmtItems r items) ++ (rest.map (fun p => fmtItems p.1 p.2)).flatten).take cap
          = (fmtItems r items).take cap := by
        apply List.take_append_of_le_length
        rw [fmtItems_length]
        omega
      simp [runKinds, hrun, htake]
    · have hlen : items.length ≤ cap := by omega
      have hlt : cap - items.length < sumLens rest := by omega
      have hrun := runStream_clean r items cap hall hlen
      have hrec := ih (cap - items.length) hrest hlt
      have htake : ((fmtItems r items) ++ (rest.map (fun p => fmtItems p.1 p.2)).flatten).take cap
          = fmtItems r items ++ ((rest.map (fun p => fmtItems p.1 p.2)).flatten).take (cap - items.length) := by
        rw [List.take_append_eq_append_take, fmtItems_length,
          List.take_of_length_le (by rw [fmtItems_length]; exact hlen)]
      simp [runKinds, hrun, hrec, htake]

theorem runKinds_failure (pre : List (String × List StreamItem)) (r : String)
    (g : List StreamItem) (m : String) (tail : List StreamItem)
    (post : List (String × List StreamItem)) :
    ∀ cap : Nat, (∀ p ∈ pre, allEv p.2 = true) → allEv g = true →
      sumLens pre + g.length ≤ cap →
      runKinds (pre ++ (r, g ++ StreamItem.failure m :: tail) :: post) cap =
        ((pre.map (fun p => fmtItems p.1 p.2)).flatten ++ fmtItems r g, some m) := by
  induction pre with
  | nil =>
    intro cap _ hg hc
    have hlen : g.length ≤ cap := by simpa [sumLens] using hc
    simp [runKinds, runStream_failure r g m tail cap hg hlen]
  | cons p rest ih =>
    intro cap h hg hc
    obtain ⟨r2, items⟩ := p
    have hall : allEv items = true := h (r2, items) (List.mem_cons_self _ _)
    have hrest : ∀ q ∈ rest, allEv q.2 = true := fun q hq => h q (List.mem_cons_of_mem _ hq)
    have hsum : items.length + (sumLens rest + g.length) ≤ cap := by
      have := hc
      simp [sumLens] at this ⊢
      omega
    have hlen : items.length ≤ cap := by omega
    have hsum2 : sumLens rest + g.length ≤ cap - items.length := by omega
    simp [runKinds, runStream_clean r2 items cap hall hlen, ih _ hrest hg hsum2]

/-- Helper: every registered plural has an entry in kind_mapping. -/
theorem kindmap_covers : ∀ r ∈ RESOURCES, (alookup kind_mapping r).isSome = true := by
  decide

/-- Claim C1: for every plural kind name not in the resource registry,
each of the four generic endpoints (GET list, POST create, PATCH by
name, DELETE by name) rejects the request with an invalid-resource
result and issues no remote call (its remote-call trace is empty). -/
theorem claim_C1 (resource : String) (h : resource ∉ RESOURCES) (api : Remote)
    (cb : CreateBody) (pb : PatchBody) (n : String) :
    get_resources api resource
        = (Response.ok (Json.jobj [("error", Json.jstr "Invalid resource type")]), []) ∧
    create_resource api resource cb = (Response.httpError 400 "Invalid resource type", []) ∧
    patch_resource api resource n pb = (Response.httpError 400 "Invalid resource type", []) ∧
    delete_resource api resource n = (Response.httpError 400 "Invalid resource type", []) := by
  refine ⟨?_, ?_, ?_, ?_⟩ <;>
    simp [get_resources, create_resource, patch_resource, delete_resource, h]

/-- Witness for C1 at the unregistered kind "gateways". -/
theorem claim_C1_witness :
    "gateways" ∉ RESOURCES ∧
    get_resources noRemote "gateways"
        = (Response.ok (Json.jobj [("error", Json.jstr "Invalid resource type")]), []) ∧
    create_resource noRemote "gateways" ⟨"g1", none, []⟩
        = (Response.httpError 400 "Invalid resource type", []) ∧
    patch_resource noRemote "gateways" "g1" ⟨[]⟩
        = (Response.httpError 400 "Invalid resource type", []) ∧
    delete_resource noRemote "gateways" "g1"
        = (Response.httpError 400 "Invalid resource type", []) :=
  ⟨by decide, claim_C1 "gateways" (by decide) noRemote ⟨"g1", none, []⟩ ⟨[]⟩ "g1"⟩

/-- Counterexample to claim C8 as stated: for the unregistered kind
"pods" the GET list endpoint does reject without remote I/O, but its
response is a plain 200 payload carrying an error field, not a 4xx
client-error status. -/
theorem claim_C8_counterexample :
    (get_resources noRemote "pods").1
        = Response.ok (Json.jobj [("error", Json.jstr "Invalid resource type")]) ∧
    respStatus (get_resources noRemote "pods").1 = 200 ∧
    ¬(400 ≤ respStatus (get_resources noRemote "pods").1 ∧
        respStatus (get_resources noRemote "pods").1 < 500) ∧
    (get_resources noRemote "pods").2 = [] := by
  refine ⟨rfl, rfl, by decide, rfl⟩

/-- Claim C8 (amended): registry validation is checked before any
remote I/O on every endpoint, and on failure no remote call is made;
the POST, PATCH and DELETE endpoints return a 400 client error, while
the GET list endpoint instead returns a success-status (200) response
whose body embeds the invalid-resource error. -/
theorem claim_C8 (resource : String) (h : resource ∉ RESOURCES) (api : Remote)
    (cb : CreateBody) (pb : PatchBody) (n : String) :
    create_resource api resource cb = (Response.httpError 400 "Invalid resource type", []) ∧
    respStatus (create_resource api resource cb).1 = 400 ∧
    patch_resource api resource n pb = (Response.httpError 400 "Invalid resource type", []) ∧
    respStatus (patch_resource api resource n pb).1 = 400 ∧
    delete_resource api resource n = (Response.httpError 400 "Invalid resource type", []) ∧
    respStatus (delete_resource api resource n).1 = 400 ∧
    get_resources api resource
        = (Response.ok (Json.jobj [("error", Json.jstr "Invalid resource type")]), []) ∧
    respStatus (get_resources api resource).1 = 200 := by
  refine ⟨?_, ?_, ?_, ?_, ?_, ?_, ?_, ?_⟩ <;>
    simp [get_resources, create_resource, patch_resource, delete_resource, h, respStatus]

/-- Witness for C8 (amended) at the unregistered kind "pods". -/
theorem claim_C8_witness :
    "pods" ∉ RESOURCES ∧
    create_resource noRemote "pods" ⟨"p1", none, []⟩
        = (Response.httpError 400 "Invalid resource type", []) ∧
    respStatus (create_resource noRemote "pods" ⟨"p1", none, []⟩).1 = 400 ∧
    patch_resource noRemote "pods" "p1" ⟨[]⟩
        = (Response.httpError 400 "Invalid resource type", []) ∧
    respStatus (patch_resource noRemote "pods" "p1" ⟨[]⟩).1 = 400 ∧
    delete_resource noRemote "pods" "p1"
        = (Response.httpError 400 "Invalid resource type", []) ∧
    respStatus (delete_resource noRemote "pods" "p1").1 = 400 ∧
    get_resources noRemote "pods"
        = (Response.ok (Json.jobj [("error", Json.jstr "Invalid resource type")]), []) ∧
    respStatus (get_resources noRemote "pods").1 = 200 :=
  ⟨by decide, claim_C8 "pods" (by decide) noRemote ⟨"p1", none, []⟩ ⟨[]⟩ "p1"⟩

/-- Claim C4: kind-name resolution maps "vpcs" to "Vpc" and
"iptables-dnat-rules" to "IptablesDnatRule", and for every plural
absent from the explicit table it falls back to the capitalize
transform of the raw plural string (Python str.capitalize). -/
theorem claim_C4 :
    resolveKind "vpcs" = "Vpc" ∧
    resolveKind "iptables-dnat-rules" = "IptablesDnatRule" ∧
    ∀ s, alookup kind_mapping s = none → resolveKind s = pyCapitalize s := by
  refine ⟨rfl, rfl, ?_⟩
  intro s h
  simp [resolveKind, h]

/-- Witness for C4, using the unmapped plural "pods". -/
theorem claim_C4_witness :
    resolveKind "vpcs" = "Vpc" ∧
    resolveKind "iptables-dnat-rules" = "IptablesDnatRule" ∧
    (alookup kind_mapping "pods" = none ∧ resolveKind "pods" = pyCapitalize "pods") :=
  ⟨claim_C4.1, claim_C4.2.1, by decide, claim_C4.2.2 "pods" (by decide)⟩

/-- Claim C10: every plural in RESOURCES has an explicit kind_mapping
entry, and the resolved kind of a registered plural is that entry; the
capitalize fallback is unreachable for accepted create requests, since
a plural with no entry is not registered and create rejects it with a
400 and no remote call. -/
theorem claim_C10 :
    (∀ r ∈ RESOURCES, alookup kind_mapping r = some (resolveKind r)) ∧
    (∀ r, alookup kind_mapping r = none → ∀ api cb,
      create_resource api r cb = (Response.httpError 400 "Invalid resource type", [])) := by
  constructor
  · decide
  · intro r h api cb
    have hmem : r ∉ RESOURCES := by
      intro hr
      have h2 := kindmap_covers r hr
      simp [h] at h2
    simp [create_resource, hmem]

/-- Witness for C10 at "vpcs" (registered) and "pods" (unmapped). -/
theorem claim_C10_witness :
    alookup kind_mapping "vpcs" = some (resolveKind "vpcs") ∧
    alookup kind_mapping "pods" = none ∧
    create_resource noRemote "pods" ⟨"p1", none, []⟩
        = (Response.httpError 400 "Invalid resource type", []) :=
  ⟨claim_C10.1 "vpcs" (by decide), by decide,
   claim_C10.2 "pods" (by decide) noRemote ⟨"p1", none, []⟩⟩

/-- Claim C6: for a registered kind, when the remote create call raises
ApiException 409 the endpoint surfaces a distinct 409 conflict with an
already-exists message naming the resolved kind and the name; any other
ApiException propagates with its own status code and message. -/
theorem claim_C6 (api : Remote) (resource name : String) (nsp : Option String)
    (spec : List (String × Json)) (s : Nat) (msg : String)
    (hres : resource ∈ RESOURCES)
    (hapi : ∀ body, api (RemoteCall.createCall GROUP VERSION resource body)
        = Except.error (PyErr.apiExn s msg)) :
    (create_resource api resource ⟨name, nsp, spec⟩).1 =
      if s = 409 then
        Response.httpError 409
          (resolveKind resource ++ " \x27" ++ name ++ "\x27 already exists")
      else Response.httpError s msg := by
  unfold create_resource
  rw [if_pos hres]
  by_cases hs : s = 409 <;> simp [hapi, hs]

/-- Witness for C6: conflict on creating subnet s1. -/
theorem claim_C6_witness :
    "subnets" ∈ RESOURCES ∧
    (create_resource conflictRemote "subnets" ⟨"s1", none, []⟩).1 =
      (if 409 = 409 then
        Response.httpError 409
          (resolveKind "subnets" ++ " \x27" ++ "s1" ++ "\x27 already exists")
      else Response.httpError 409 "(409) Reason: Conflict") :=
  ⟨by decide,
   claim_C6 conflictRemote "subnets" "s1" none [] 409 "(409) Reason: Conflict"
     (by decide) (fun _ => rfl)⟩

/-- Claim C7: for a registered kind and name, when the remote get call
raises ApiException 404 both the generic patch and the generic delete
endpoint surface a distinct 404 with a not-found message naming the
(capitalized plural) kind and the name; any other ApiException
propagates with its own status code and message. -/
theorem claim_C7 (api : Remote) (resource name : String) (pb : PatchBody)
    (s : Nat) (msg : String) (hres : resource ∈ RESOURCES)
    (hapi : api (RemoteCall.getCall GROUP VERSION resource name)
        = Except.error (PyErr.apiExn s msg)) :
    (patch_resource api resource name pb).1 =
      (if s = 404 then
        Response.httpError 404
          (pyCapitalize resource ++ " \x27" ++ name ++ "\x27 not found")
      else Response.httpError s msg) ∧
    (delete_resource api resource name).1 =
      (if s = 404 then
        Response.httpError 404
          (pyCapitalize resource ++ " \x27" ++ name ++ "\x27 not found")
      else Response.httpError s msg) := by
  constructor
  · unfold patch_resource
    rw [if_pos hres]
    by_cases hs : s = 404 <;> simp [hapi, hs]
  · unfold delete_resource
    rw [if_pos hres]
    by_cases hs : s = 404 <;> simp [hapi, hs]

/-- Witness for C7: not-found on patching and deleting vlan v1. -/
theorem claim_C7_witness :
    "vlans" ∈ RESOURCES ∧
    (patch_resource notFoundRemote "vlans" "v1" ⟨[]⟩).1 =
      (if 404 = 404 then
        Response.httpError 404
          (pyCapitalize "vlans" ++ " \x27" ++ "v1" ++ "\x27 not found")
      else Response.httpError 404 "(404) Reason: Not Found") ∧
    (delete_resource notFoundRemote "vlans" "v1").1 =
      (if 404 = 404 then
        Response.httpError 404
          (pyCapitalize "vlans" ++ " \x27" ++ "v1" ++ "\x27 not found")
      else Response.httpError 404 "(404) Reason: Not Found") :=
  ⟨by decide,
   claim_C7 notFoundRemote "vlans" "v1" ⟨[]⟩ 404 "(404) Reason: Not Found"
     (by decide) rfl⟩

/-- Claim C3: for every create request with a registered plural kind,
the manifest submitted to the remote create call is exactly the object
with apiVersion kubeovn.io/v1, the resolved singular kind, metadata
holding the name (plus the namespace exactly when a nonempty one was
provided, which is how Python truthiness reads "provided"), and the
given spec; concretely, POST on subnets with name s1 and spec
cidrBlock 10.0.0.0/24 submits the manifest of the spec example. -/
theorem claim_C3 (api : Remote) (resource name : String) (nsp : Option String)
    (spec : List (String × Json)) (hres : resource ∈ RESOURCES) :
    (create_resource api resource ⟨name, nsp, spec⟩).2 =
      [RemoteCall.createCall GROUP VERSION resource (Json.jobj
        [("apiVersion", Json.jstr "kubeovn.io/v1"),
         ("kind", Json.jstr (resolveKind resource)),
         ("metadata", Json.jobj ([("name", Json.jstr name)] ++
           (match nsp with
            | some ns => if ns = "" then [] else [("namespace", Json.jstr ns)]
            | none => []))),
         ("spec", Json.jobj spec)])] ∧
    (create_resource api "subnets" ⟨"s1", none, [("cidrBlock", Json.jstr "10.0.0.0/24")]⟩).2 =
      [RemoteCall.createCall "kubeovn.io" "v1" "subnets" (Json.jobj
        [("apiVersion", Json.jstr "kubeovn.io/v1"),
         ("kind", Json.jstr "Subnet"),
         ("metadata", Json.jobj [("name", Json.jstr "s1")]),
         ("spec", Json.jobj [("cidrBlock", Json.jstr "10.0.0.0/24")])])] := by
  have hsub : resolveKind "subnets" = "Subnet" := by decide
  constructor
  · unfold create_resource
    rw [if_pos hres]
    rcases nsp with _ | ns
    · simp only []
      split <;> (try split) <;> simp_all [GROUP, VERSION]
    · by_cases hns : ns = "" <;>
        · simp only [hns]
          split <;> (try split) <;> (try split) <;> simp_all [GROUP, VERSION]
  · unfold create_resource
    rw [if_pos (by decide : "subnets" ∈ RESOURCES)]
    simp only []
    split <;> (try split) <;> simp_all [GROUP, VERSION]

/-- Witness for C3 at vpcs (with a namespace) and the subnets example. -/
theorem claim_C3_witness :
    "vpcs" ∈ RESOURCES ∧
    ((create_resource noRemote "vpcs" ⟨"v1", some "ns1", []⟩).2 =
      [RemoteCall.createCall GROUP VERSION "vpcs" (Json.jobj
        [("apiVersion", Json.jstr "kubeovn.io/v1"),
         ("kind", Json.jstr (resolveKind "vpcs")),
         ("metadata", Json.jobj ([("name", Json.jstr "v1")] ++
           (match some "ns1" with
            | some ns => if ns = "" then [] else [("namespace", Json.jstr ns)]
            | none => ([] : List (String × Json))))),
         ("spec", Json.jobj [])])] ∧
    (create_resource noRemote "subnets" ⟨"s1", none, [("cidrBlock", Json.jstr "10.0.0.0/24")]⟩).2 =
      [RemoteCall.createCall "kubeovn.io" "v1" "subnets" (Json.jobj
        [("apiVersion", Json.jstr "kubeovn.io/v1"),
         ("kind", Json.jstr "Subnet"),
         ("metadata", Json.jobj [("name", Json.jstr "s1")]),
         ("spec", Json.jobj [("cidrBlock", Json.jstr "10.0.0.0/24")])])]) :=
  ⟨by decide, claim_C3 noRemote "vpcs" "v1" (some "ns1") [] (by decide)⟩

/-- Claim C2: every patch endpoint merges the request spec into the
fetched spec shallowly: a key present in the patch overwrites the
current value wholesale (also when both values are nested objects),
keys absent from the patch are unchanged, new keys are added; patching
a=2 onto a=1,b=3 yields a=2,b=3; and each of the three patch handlers
submits the object carrying exactly this merged spec as the update. -/
theorem claim_C2 :
    (∀ cur patch : List (String × Json), ∀ k v,
      alookup patch k = some v → alookup (dictUpdate cur patch) k = some v) ∧
    (∀ cur patch : List (String × Json), ∀ k,
      alookup patch k = none → alookup (dictUpdate cur patch) k = alookup cur k) ∧
    dictUpdate [("a", Json.jnum 1), ("b", Json.jnum 3)] [("a", Json.jnum 2)]
      = [("a", Json.jnum 2), ("b", Json.jnum 3)] ∧
    dictUpdate [("a", Json.jobj [("x", Json.jnum 1), ("y", Json.jnum 2)])]
        [("a", Json.jobj [("x", Json.jnum 9)])]
      = [("a", Json.jobj [("x", Json.jnum 9)])] ∧
    (∀ api : Remote, ∀ resource n : String, ∀ b : PatchBody,
      ∀ fields specFields : List (String × Json),
      resource ∈ RESOURCES →
      api (RemoteCall.getCall GROUP VERSION resource n) = Except.ok (Json.jobj fields) →
      alookup fields "spec" = some (Json.jobj specFields) →
      (patch_resource api resource n b).2 =
        [RemoteCall.getCall GROUP VERSION resource n,
         RemoteCall.patchCall GROUP VERSION resource n
           (Json.jobj (setKey fields "spec" (Json.jobj (dictUpdate specFields b.spec))))]) ∧
    (∀ api : Remote, ∀ n : String, ∀ b : PatchBody,
      ∀ fields specFields : List (String × Json),
      api (RemoteCall.getCall GROUP VERSION "subnets" n) = Except.ok (Json.jobj fields) →
      alookup fields "spec" = some (Json.jobj specFields) →
      (patch_subnet api n b).2 =
        [RemoteCall.getCall GROUP VERSION "subnets" n,
         RemoteCall.patchCall GROUP VERSION "subnets" n
           (Json.jobj (setKey fields "spec" (Json.jobj (dictUpdate specFields b.spec))))]) ∧
    (∀ api : Remote, ∀ n : String, ∀ b : PatchBody,
      ∀ fields specFields : List (String × Json),
      api (RemoteCall.getCall GROUP VERSION "vpc-nat-gateways" n)
        = Except.ok (Json.jobj fields) →
      alookup fields "spec" = some (Json.jobj specFields) →
      (patch_vpc_nat_gateway api n b).2 =
        [RemoteCall.getCall GROUP VERSION "vpc-nat-gateways" n,
         RemoteCall.patchCall GROUP VERSION "vpc-nat-gateways" n
           (Json.jobj (setKey fields "spec" (Json.jobj (dictUpdate specFields b.spec))))]) := by
  refine ⟨?_, ?_, by rfl, by rfl, ?_, ?_, ?_⟩
  · intro cur patch k v h
    rw [dictUpdate_alookup, h]
  · intro cur patch k h
    rw [dictUpdate_alookup, h]
  · intro api resource n b fields specFields hres hget hspec
    unfold patch_resource
    rw [if_pos hres]
    simp only [hget, updatedSpec, hspec]
    split <;> (try split) <;> simp_all
  · intro api n b fields specFields hget hspec
    unfold patch_subnet
    simp only [hget, updatedSpec, hspec]
    split <;> (try split) <;> simp_all
  · intro api n b fields specFields hget hspec
    unfold patch_vpc_nat_gateway
    simp only [hget, updatedSpec, hspec]
    split <;> (try split) <;> simp_all

/-- Witness for C2: patching spec a=2 through the subnet handler onto
the okRemote object whose spec is a=1, b=3. -/
theorem claim_C2_witness :
    alookup (dictUpdate [("a", Json.jnum 1), ("b", Json.jnum 3)] [("a", Json.jnum 2)]) "a"
      = some (Json.jnum 2) ∧
    alookup (dictUpdate [("a", Json.jnum 1), ("b", Json.jnum 3)] [("a", Json.jnum 2)]) "b"
      = some (Json.jnum 3) ∧
    okRemote (RemoteCall.getCall GROUP VERSION "subnets" "s1")
      = Except.ok (Json.jobj
          [("apiVersion", Json.jstr "kubeovn.io/v1"),
           ("spec", Json.jobj [("a", Json.jnum 1), ("b", Json.jnum 3)])]) ∧
    (patch_subnet okRemote "s1" ⟨[("a", Json.jnum 2)]⟩).2 =
      [RemoteCall.getCall GROUP VERSION "subnets" "s1",
       RemoteCall.patchCall GROUP VERSION "subnets" "s1"
         (Json.jobj (setKey
           [("apiVersion", Json.jstr "kubeovn.io/v1"),
            ("spec", Json.jobj [("a", Json.jnum 1), ("b", Json.jnum 3)])]
           "spec"
           (Json.jobj (dictUpdate [("a", Json.jnum 1), ("b", Json.jnum 3)]
             [("a", Json.jnum 2)]))))] :=
  ⟨claim_C2.1 [("a", Json.jnum 1), ("b", Json.jnum 3)] [("a", Json.jnum 2)] "a"
      (Json.jnum 2) rfl,
   claim_C2.2.1 [("a", Json.jnum 1), ("b", Json.jnum 3)] [("a", Json.jnum 2)] "b" rfl,
   rfl,
   claim_C2.2.2.2.2.2.1 okRemote "s1" ⟨[("a", Json.jnum 2)]⟩
     [("apiVersion", Json.jstr "kubeovn.io/v1"),
      ("spec", Json.jobj [("a", Json.jnum 1), ("b", Json.jnum 3)])]
     [("a", Json.jnum 1), ("b", Json.jnum 3)] rfl rfl⟩

/-- Counterexample to claim C5 as stated: with a remote that reports
404, the subnet-specific patch handler answers with detail naming
"Subnet" while the generic handler invoked with kind subnets answers
with the capitalized plural "Subnets", so the two responses are not
identical although both have status 404. -/
theorem claim_C5_counterexample :
    (patch_subnet notFoundRemote "s1" ⟨[]⟩).1
        = Response.httpError 404 "Subnet \x27s1\x27 not found" ∧
    (patch_resource notFoundRemote "subnets" "s1" ⟨[]⟩).1
        = Response.httpError 404 "Subnets \x27s1\x27 not found" ∧
    (patch_subnet notFoundRemote "s1" ⟨[]⟩).1
        ≠ (patch_resource notFoundRemote "subnets" "s1" ⟨[]⟩).1 := by
  refine ⟨rfl, rfl, ?_⟩
  intro h
  have h2 : respDetail (patch_subnet notFoundRemote "s1" ⟨[]⟩).1
      = respDetail (patch_resource notFoundRemote "subnets" "s1" ⟨[]⟩).1 :=
    congrArg respDetail h
  have h3 : ("Subnet \x27s1\x27 not found" : String) = "Subnets \x27s1\x27 not found" := h2
  exact absurd h3 (by decide)

/-- Claim C5 (amended): the kind-specific PATCH and DELETE routes for
subnets and vpc-nat-gateways take dispatch precedence over the generic
route for the same verb and path shape, and each kind-specific handler
issues the same remote calls and returns the same status code as the
generic handler invoked with that kind; the responses are identical
except for the wording of handler-authored messages (the 404 not-found
detail and the delete confirmation), where the generic handler uses
the capitalized plural in place of the kind-specific human name. -/
theorem claim_C5 :
    (∀ n, dispatch HttpMethod.patch ["api", "subnets", n] = some HandlerId.patchSubnetH) ∧
    (∀ n, dispatch HttpMethod.patch ["api", "vpc-nat-gateways", n]
        = some HandlerId.patchVpcNatGatewayH) ∧
    (∀ n, dispatch HttpMethod.del ["api", "subnets", n] = some HandlerId.deleteSubnetH) ∧
    (∀ n, dispatch HttpMethod.del ["api", "vpc-nat-gateways", n]
        = some HandlerId.deleteVpcNatGatewayH) ∧
    (∀ api n b,
      (patch_subnet api n b).2 = (patch_resource api "subnets" n b).2 ∧
      respStatus (patch_subnet api n b).1 = respStatus (patch_resource api "subnets" n b).1 ∧
      (respStatus (patch_subnet api n b).1 ≠ 404 →
        patch_subnet api n b = patch_resource api "subnets" n b)) ∧
    (∀ api n b,
      (patch_vpc_nat_gateway api n b).2 = (patch_resource api "vpc-nat-gateways" n b).2 ∧
      respStatus (patch_vpc_nat_gateway api n b).1 =
        respStatus (patch_resource api "vpc-nat-gateways" n b).1 ∧
      (respStatus (patch_vpc_nat_gateway api n b).1 ≠ 404 →
        patch_vpc_nat_gateway api n b = patch_resource api "vpc-nat-gateways" n b)) ∧
    (∀ api n,
      (delete_subnet api n).2 = (delete_resource api "subnets" n).2 ∧
      respStatus (delete_subnet api n).1 = respStatus (delete_resource api "subnets" n).1 ∧
      (∀ s d, (delete_subnet api n).1 = Response.httpError s d → s ≠ 404 →
        (delete_resource api "subnets" n).1 = Response.httpError s d)) ∧
    (∀ api n,
      (delete_vpc_nat_gateway api n).2 = (delete_resource api "vpc-nat-gateways" n).2 ∧
      respStatus (delete_vpc_nat_gateway api n).1 =
        respStatus (delete_resource api "vpc-nat-gateways" n).1 ∧
      (∀ s d, (delete_vpc_nat_gateway api n).1 = Response.httpError s d → s ≠ 404 →
        (delete_resource api "vpc-nat-gateways" n).1 = Response.httpError s d)) :=
  ⟨fun _ => rfl, fun _ => rfl, fun _ => rfl, fun _ => rfl,
   fun api n b => patch_subnet_vs_generic api n b,
   fun api n b => patch_vpcnat_vs_generic api n b,
   fun api n => delete_subnet_vs_generic api n,
   fun api n => delete_vpcnat_vs_generic api n⟩

/-- Witness for C5: dispatch of PATCH api/subnets/s1 and full response
agreement of the two patch handlers on a remote failing with 500. -/
theorem claim_C5_witness :
    dispatch HttpMethod.patch ["api", "subnets", "s1"] = some HandlerId.patchSubnetH ∧
    respStatus (patch_subnet noRemote "s1" ⟨[]⟩).1 ≠ 404 ∧
    patch_subnet noRemote "s1" ⟨[]⟩ = patch_resource noRemote "subnets" "s1" ⟨[]⟩ :=
  ⟨claim_C5.1 "s1", by decide,
   (claim_C5.2.2.2.2.1 noRemote "s1" ⟨[]⟩).2.2 (by decide)⟩

/-- Claim C9: after accepting the connection the relay iterates the
registry in order, draining each watch subscription and forwarding
every received event as a resource/type/object message; when every
stream is error-free and the connection holds, the sent messages are
exactly all events in registry order and the watch is stopped and the
connection closed on return; when some kind raises mid-stream, the
messages stop at that point (no reconnect or resumption), the handler
records the error, stops the watch and the connection closes; when the
connection drops after cap sends, the sent messages are exactly the
first cap and the loop likewise terminates for good. -/
theorem claim_C9 :
    (∀ events cap, (∀ r ∈ RESOURCES, allEv (events r) = true) → totalEv events ≤ cap →
      websocket_endpoint events cap =
        { sent := fmtAll events, errored := false, stopCalled := true, closed := true }) ∧
    (∀ events cap (pre post : List String) (r : String) g m tail,
      RESOURCES = pre ++ r :: post →
      (∀ p ∈ pre, allEv (events p) = true) →
      events r = g ++ StreamItem.failure m :: tail →
      allEv g = true →
      (pre.map (fun p => (events p).length)).sum + g.length ≤ cap →
      websocket_endpoint events cap =
        { sent := (pre.map (fun p => fmtItems p (events p))).flatten ++ fmtItems r g,
          errored := true, stopCalled := true, closed := true }) ∧
    (∀ events cap, (∀ r ∈ RESOURCES, allEv (events r) = true) → cap < totalEv events →
      websocket_endpoint events cap =
        { sent := (fmtAll events).take cap, errored := true, stopCalled := true,
          closed := true }) := by
  refine ⟨?_, ?_, ?_⟩
  · intro events cap h hc
    have hall : ∀ p ∈ RESOURCES.map (fun res => (res, events res)), allEv p.2 = true := by
      intro p hp
      rw [List.mem_map] at hp
      obtain ⟨r, hr, rfl⟩ := hp
      exact h r hr
    have hsum : sumLens (RESOURCES.map (fun res => (res, events res))) = totalEv events := by
      simp [sumLens, totalEv, List.map_map, Function.comp_def]
    have hrun := runKinds_clean (RESOURCES.map (fun res => (res, events res))) cap hall
      (by rw [hsum]; exact hc)
    simp [websocket_endpoint, hrun, fmtAll, List.map_map, Function.comp_def]
  · intro events cap pre post r g m tail hres h hev hg hc
    have hall : ∀ p ∈ pre.map (fun res => (res, events res)), allEv p.2 = true := by
      intro p hp
      rw [List.mem_map] at hp
      obtain ⟨q, hq, rfl⟩ := hp
      exact h q hq
    have hsum : sumLens (pre.map (fun res => (res, events res)))
        = (pre.map (fun p => (events p).length)).sum := by
      simp [sumLens, List.map_map, Function.comp_def]
    have hrun := runKinds_failure (pre.map (fun res => (res, events res))) r g m tail
      (post.map (fun res => (res, events res))) cap hall hg (by rw [hsum]; exact hc)
    have hsplit : RESOURCES.map (fun res => (res, events res))
        = pre.map (fun res => (res, events res))
          ++ (r, g ++ StreamItem.failure m :: tail) :: post.map (fun res => (res, events res)) := by
      rw [hres]
      simp [hev]
    simp [websocket_endpoint, hsplit, hrun, List.map_map, Function.comp_def]
  · intro events cap h hc
    have hall : ∀ p ∈ RESOURCES.map (fun res => (res, events res)), allEv p.2 = true := by
      intro p hp
      rw [List.mem_map] at hp
      obtain ⟨r, hr, rfl⟩ := hp
      exact h r hr
    have hsum : sumLens (RESOURCES.map (fun res => (res, events res))) = totalEv events := by
      simp [sumLens, totalEv, List.map_map, Function.comp_def]
    have hrun := runKinds_drop (RESOURCES.map (fun res => (res, events res))) cap hall
      (by rw [hsum]; exact hc)
    simp [websocket_endpoint, hrun, fmtAll, List.map_map, Function.comp_def]

/-- Witness for C9: one ADDED event on vpcs with enough capacity. -/
theorem claim_C9_witness :
    (∀ r ∈ RESOURCES, allEv (eventsW r) = true) ∧
    totalEv eventsW ≤ 1 ∧
    websocket_endpoint eventsW 1 =
      { sent := fmtAll eventsW, errored := false, stopCalled := true, closed := true } :=
  ⟨by decide, by decide, claim_C9.1 eventsW 1 (by decide) (by decide)⟩
